import Mathlib

/-!
Verification of the `luo-capture-rs` screen-capture engine
(`src/capture.rs`) against its natural-language specification.

The Rust code is shallowly embedded: the engine state `ScreenCapture`
becomes a Lean structure, every Windows API interaction (D3D11/DXGI
device creation, `GetSystemMetrics`, GDI handle operations, frame
acquisition, PNG encoding) is driven by an explicit environment/oracle
value `Env`, and the engine operations become pure state-passing
functions.  Machine integers are modelled as `Nat`/`Int` with explicit
reductions modulo `2 ^ 32` where the Rust code performs wrapping casts.
A Rust slice-index panic is modelled by `Option`/a dedicated outcome
constructor.  Pixel bytes are opaque `Nat` values supplied by the
oracle; the engine only moves them around.
-/

/-- `CaptureRegion` from capture.rs: `x, y : i32`, `width, height : u32`.
`x`/`y` are modelled as `Int` (i32 values), `width`/`height` as `Nat`
(u32 values). -/
structure CaptureRegion where
  x : Int
  y : Int
  width : Nat
  height : Nat
deriving DecidableEq, Repr

/-- `CaptureData` from capture.rs.  The `timestamp : Instant` field is
real-time data outside the functional model and is omitted; no claim
mentions it. -/
structure CaptureData where
  data : List Nat
  width : Nat
  height : Nat
deriving DecidableEq, Repr

/-- The `CaptureError` enum from capture.rs, messages included. -/
inductive CaptureError where
  | initializationError (msg : String)
  | captureError (msg : String)
  | invalidRegion
  | resourceError (msg : String)
deriving DecidableEq, Repr

/-- `CaptureResult<T>` from capture.rs. -/
abbrev CaptureResult (α : Type) := Except CaptureError α

/-- The `ScreenCapture` engine state.  `initDone` embeds the Rust field
`is_initialized`; `dxgi_resources` embeds `Option<DxgiResources>` as its
`is_some()` (the D3D11 handles themselves are opaque). -/
structure ScreenCapture where
  initDone : Bool
  width : Nat
  height : Nat
  dxgi_resources : Bool
  use_gdi_fallback : Bool
deriving DecidableEq, Repr

/-- `ScreenCapture::new()`. -/
def ScreenCapture.new : ScreenCapture :=
  { initDone := false, width := 0, height := 0,
    dxgi_resources := false, use_gdi_fallback := false }

/-- Oracle for one `capture_frame` call: the outcome of each fallible
DXGI step, and the staging texture's dimensions and mapped bytes. -/
structure FrameOracle where
  acquire : Option String
  desktopResourcePresent : Bool
  castResult : Option String
  createStagingResult : Option String
  stagingPresent : Bool
  mapResult : Option String
  texHeight : Nat
  rowPitch : Nat
  pix : Nat → Nat

/-- Environment for one engine call: outcomes of every OS/library
interaction.  `dxgiInit` is the result of `initialize_dxgi` (on success
the display dimensions from the output description); `gdiDims` is the
`GetSystemMetrics` pair; `gdiCapture` is the GDI blit outcome (on
success the native BGRA bytes, indexed); `pngSave` is `img.save`'s
failure message, if any. -/
structure Env where
  dxgiInit : Except String (Nat × Nat)
  gdiDims : Nat × Nat
  frame : FrameOracle
  gdiCapture : Except String (Nat → Nat)
  pngSave : Option String

/-- `ScreenCapture::init` (capture.rs lines 166-188): returns
immediately when already initialized; otherwise tries DXGI
initialization, falling back to the GDI dimension query (which cannot
fail) on error.  Either way `is_initialized` becomes true and `Ok(())`
is returned. -/
def ScreenCapture.init (st : ScreenCapture) (env : Env) :
    CaptureResult Unit × ScreenCapture :=
  if st.initDone then (.ok (), st)
  else
    match env.dxgiInit with
    | .ok (w, h) =>
        (.ok (), { st with width := w, height := h, dxgi_resources := true,
                           use_gdi_fallback := false, initDone := true })
    | .error _ =>
        (.ok (), { st with use_gdi_fallback := true,
                           width := env.gdiDims.1, height := env.gdiDims.2,
                           initDone := true })

/-- `ScreenCapture::ensure_dxgi_resources` (capture.rs lines 191-197). -/
def ScreenCapture.ensure (st : ScreenCapture) (env : Env) :
    CaptureResult Unit × ScreenCapture :=
  if st.dxgi_resources = false ∧ st.use_gdi_fallback = false then
    ScreenCapture.init { st with initDone := false } env
  else (.ok (), st)

/-- The BGRA→RGBA in-place swap at capture.rs lines 301-311:
`chunks_exact_mut(4)` with channels 0 and 2 exchanged; a trailing
chunk shorter than 4 bytes is left untouched. -/
def bgraToRgba : List Nat → List Nat
  | b :: g :: r :: a :: rest => r :: g :: b :: a :: bgraToRgba rest
  | l => l

/-- `ScreenCapture::capture_with_gdi` (capture.rs lines 210-315), called
by `capture` with the full-screen region `{0, 0, w, h}`: every handle
failure yields `CaptureError::CaptureError(msg)`; on success the
`w*h*4`-byte native buffer is channel-swapped and returned. -/
def captureWithGdi (env : Env) (w h : Nat) : CaptureResult (List Nat) :=
  match env.gdiCapture with
  | .error e => .error (.captureError e)
  | .ok pix => .ok (bgraToRgba ((List.range (w * h * 4)).map pix))

/-- `ScreenCapture::capture_frame` (capture.rs lines 318-462), given the
DXGI resources exist, paired with the number of `ReleaseFrame` calls
performed on that execution path.  Mirrors the code path by path: the
missing-desktop-resource and cast-failure early returns perform no
release; the staging-creation, staging-missing and map-failure returns
and the success path release once. -/
def captureFrameFull (o : FrameOracle) : CaptureResult (List Nat) × Nat :=
  match o.acquire with
  | some e => (.error (.captureError ("获取帧失败: " ++ e)), 0)
  | none =>
    if o.desktopResourcePresent = false then
      (.error (.captureError "无法获取桌面资源"), 0)
    else
      match o.castResult with
      | some e => (.error (.captureError ("转换纹理失败: " ++ e)), 0)
      | none =>
        match o.createStagingResult with
        | some e => (.error (.captureError ("创建暂存纹理失败: " ++ e)), 1)
        | none =>
          if o.stagingPresent = false then
            (.error (.captureError "无法创建暂存纹理"), 1)
          else
            match o.mapResult with
            | some e => (.error (.captureError ("映射纹理失败: " ++ e)), 1)
            | none =>
                (.ok ((List.range (o.texHeight * o.rowPitch)).map o.pix), 1)

/-- `capture_frame` as seen by `capture`: the guard at lines 320-322
plus the frame path's result. -/
def captureFrameRes (st : ScreenCapture) (env : Env) :
    CaptureResult (List Nat) :=
  if st.dxgi_resources = false then
    .error (.captureError "DXGI资源未初始化")
  else (captureFrameFull env.frame).1

/-- The wrapping bounds arithmetic of capture.rs lines 480-481:
`(x + w as i32) as u32` computed with two's-complement wrap-around,
which for `0 ≤ x < 2^31` and `w < 2^32` equals `(x + w) mod 2^32`. -/
def wrapAdd (x : Int) (n : Nat) : Nat :=
  ((x + (n : Int)) % (2 ^ 32 : Int)).toNat

/-- First validation check (capture.rs line 476). -/
def regionDegenerate (r : CaptureRegion) : Bool :=
  decide (r.x < 0) || decide (r.y < 0) || r.width == 0 || r.height == 0

/-- Second validation check (capture.rs lines 480-481). -/
def regionOutOfBounds (r : CaptureRegion) (w h : Nat) : Bool :=
  decide (wrapAdd r.x r.width > w) || decide (wrapAdd r.y r.height > h)

/-- One destination row of the extraction loop (capture.rs lines
528-545): offsets are computed against the cached full width; if the
row start is past the buffer the row contributes nothing; if the copy
range straddles the buffer end the slice expression panics (`none`);
a column truncation at the row's width bound is zero-filled. -/
def extractRow (full : List Nat) (fullW x w srcY : Nat) :
    Option (List Nat) :=
  let rowStart := srcY * fullW * 4
  let srcStart := rowStart + x * 4
  let srcEnd := min (srcStart + w * 4) (rowStart + fullW * 4)
  if srcStart < full.length then
    let copyLen := srcEnd - srcStart
    if srcStart + copyLen ≤ full.length then
      some (((full.drop srcStart).take copyLen) ++
              List.replicate (w * 4 - copyLen) 0)
    else none
  else some []

/-- The row loop of capture.rs lines 527-546, recursing over the
remaining row count; the `break` at line 529-531 stops the loop when
the source row leaves the cached display height. -/
def extractLoop (full : List Nat) (fullW hBound x y0 w : Nat) :
    Nat → Nat → Option (List Nat)
  | _, 0 => some []
  | y, Nat.succ rem =>
    if y0 + y ≥ hBound then some []
    else
      match extractRow full fullW x w (y0 + y) with
      | none => none
      | some row =>
        match extractLoop full fullW hBound x y0 w (y + 1) rem with
        | none => none
        | some rest => some (row ++ rest)

/-- Sub-rectangle extraction from the full-frame buffer (capture.rs
lines 514-546). -/
def extractRegion (full : List Nat) (fullW hBound x y0 w h : Nat) :
    Option (List Nat) :=
  extractLoop full fullW hBound x y0 w 0 h

/-- Full-frame acquisition step of `capture` (capture.rs lines
487-512): GDI when the fallback flag is set; otherwise DXGI, demoting
to GDI permanently on failure. -/
def acquireFull (st : ScreenCapture) (env : Env) :
    CaptureResult (List Nat) × ScreenCapture :=
  if st.use_gdi_fallback then (captureWithGdi env st.width st.height, st)
  else
    match captureFrameRes st env with
    | .ok d => (.ok d, st)
    | .error _ =>
        (captureWithGdi env st.width st.height,
         { st with use_gdi_fallback := true })

/-- Outcome of `capture` up to (but not including) the save/return
step; `panicked` models a Rust slice-index panic in the extraction. -/
inductive CoreOut where
  | panicked
  | err (e : CaptureError)
  | ok (data : List Nat)
deriving DecidableEq, Repr

/-- `ScreenCapture::capture` (capture.rs lines 467-546) up to the
extraction result: ensure resources, validate, acquire, extract. -/
def captureCore (st : ScreenCapture) (env : Env) (region : CaptureRegion) :
    CoreOut × ScreenCapture :=
  match ScreenCapture.ensure st env with
  | (.error e, st1) => (.err e, st1)
  | (.ok _, st1) =>
    if regionDegenerate region then (.err .invalidRegion, st1)
    else if regionOutOfBounds region st1.width st1.height then
      (.err .invalidRegion, st1)
    else
      match acquireFull st1 env with
      | (.error e, st2) => (.err e, st2)
      | (.ok full, st2) =>
        match extractRegion full st2.width st2.height
            (max region.x 0).toNat (max region.y 0).toNat
            region.width region.height with
        | none => (.panicked, st2)
        | some data => (.ok data, st2)

/-- Observable outcome of one `capture` call. -/
inductive CapOutcome where
  | panicked
  | err (e : CaptureError)
  | ok (d : CaptureData)
deriving DecidableEq, Repr

/-- `ScreenCapture::capture` (capture.rs lines 467-570): the core, then
the optional PNG persistence step (lines 548-560: per the image crate,
`ImageBuffer::from_raw` returns `None` when the buffer holds fewer than
`width*height*4` bytes; `img.save`'s outcome is oracle-driven), then
the `CaptureData` construction. -/
def capture (st : ScreenCapture) (env : Env) (region : CaptureRegion)
    (savePath : Bool) : CapOutcome × ScreenCapture :=
  match captureCore st env region with
  | (.panicked, st2) => (.panicked, st2)
  | (.err e, st2) => (.err e, st2)
  | (.ok data, st2) =>
    if savePath then
      if data.length < region.width * region.height * 4 then
        (.err (.captureError "创建图像缓冲区失败"), st2)
      else
        match env.pngSave with
        | some m =>
            (.err (.captureError ("保存PNG文件失败: " ++ m)), st2)
        | none => (.ok ⟨data, region.width, region.height⟩, st2)
    else (.ok ⟨data, region.width, region.height⟩, st2)

/-- One public engine operation, for lifetime-trace statements. -/
inductive EngineOp where
  | initOp
  | captureOp (region : CaptureRegion) (savePath : Bool)

/-- State transition of one operation. -/
def stepState (st : ScreenCapture) : EngineOp × Env → ScreenCapture
  | (.initOp, env) => (ScreenCapture.init st env).2
  | (.captureOp r p, env) => (capture st env r p).2

/-- State after a whole script of operations. -/
def runOps (st : ScreenCapture) : List (EngineOp × Env) → ScreenCapture
  | [] => st
  | op :: rest => runOps (stepState st op) rest

/-- Modelled from the spec (§4.3 step 4), for comparison with the
code's extraction: one destination row read at source offset
`(region.y + y) * row_pitch + region.x * 4`, with any byte beyond the
buffer's bounds replaced by zero. -/
def specRow (full : List Nat) (rowPitch x w srcY : Nat) : List Nat :=
  (List.range (w * 4)).map (fun i => full.getD (srcY * rowPitch + x * 4 + i) 0)

/-- Modelled from the spec (§4.3 step 4): row-pitch-indexed extraction
of the whole region, out-of-bounds bytes zero-filled. -/
def specExtractRegion (full : List Nat) (rowPitch x y0 w h : Nat) :
    List Nat :=
  ((List.range h).map (fun y => specRow full rowPitch x w (y0 + y))).flatten

/-- Replace the DXGI frame oracle of an environment. -/
def envWithFrame (e : Env) (f : FrameOracle) : Env :=
  { e with frame := f }

/-! ### Concrete states, oracles and environments used as test inputs -/

/-- A frame oracle whose acquisition times out. -/
def frameFail : FrameOracle :=
  { acquire := some "等待超时", desktopResourcePresent := true,
    castResult := none, createStagingResult := none, stagingPresent := true,
    mapResult := none, texHeight := 0, rowPitch := 0, pix := fun _ => 0 }

/-- A frame oracle that succeeds with given texture height, row pitch
and constant-content bytes. -/
def frameOk (th rp : Nat) (p : Nat → Nat) : FrameOracle :=
  { acquire := none, desktopResourcePresent := true, castResult := none,
    createStagingResult := none, stagingPresent := true, mapResult := none,
    texHeight := th, rowPitch := rp, pix := p }

/-- Initialized engine on a 2×2 display using the DXGI path. -/
def stDxgi22 : ScreenCapture :=
  { initDone := true, width := 2, height := 2,
    dxgi_resources := true, use_gdi_fallback := false }

/-- Initialized engine on a 1×1 display using the DXGI path. -/
def stDxgi11 : ScreenCapture :=
  { initDone := true, width := 1, height := 1,
    dxgi_resources := true, use_gdi_fallback := false }

/-- Initialized engine on a 1×1 display on the GDI fallback path. -/
def stGdi11 : ScreenCapture :=
  { initDone := true, width := 1, height := 1,
    dxgi_resources := false, use_gdi_fallback := true }

/-- Initialized engine on a 1920×1080 display on the GDI fallback path. -/
def stGdi1920 : ScreenCapture :=
  { initDone := true, width := 1920, height := 1080,
    dxgi_resources := false, use_gdi_fallback := true }

/-- Initialized engine on a 4×4 display using the DXGI path. -/
def stDxgi44 : ScreenCapture :=
  { initDone := true, width := 4, height := 4,
    dxgi_resources := true, use_gdi_fallback := false }

/-- Environment whose DXGI frame is one row of 8 bytes of value 7
(texture height 1, row pitch 8): a frame shorter than the cached
2×2 display. -/
def envShortFrame : Env :=
  { dxgiInit := .error "x", gdiDims := (0, 0),
    frame := frameOk 1 8 (fun _ => 7),
    gdiCapture := .error "e", pngSave := none }

/-- The 24-byte full-frame buffer `0,1,…,23`: texture height 2, row
pitch 12 on a cached width-2 display (pitch exceeds width*4). -/
def fullC2 : List Nat := (List.range 24).map (fun i => i)

/-- Environment whose DXGI frame is `fullC2` (height 2, pitch 12). -/
def envPitchFrame : Env :=
  { dxgiInit := .error "x", gdiDims := (0, 0),
    frame := frameOk 2 12 (fun i => i),
    gdiCapture := .error "e", pngSave := none }

/-- One pure-red pixel in the Windows-native BGRA byte order. -/
def pixBGRA : Nat → Nat := fun i => [0, 0, 255, 255].getD i 0

/-- Environment whose DXGI frame is one native BGRA pixel. -/
def envDxBGRA : Env :=
  { dxgiInit := .error "x", gdiDims := (0, 0),
    frame := frameOk 1 4 pixBGRA,
    gdiCapture := .error "e", pngSave := none }

/-- Environment whose GDI blit returns one native BGRA pixel. -/
def envGdiBGRA : Env :=
  { dxgiInit := .error "x", gdiDims := (0, 0), frame := frameFail,
    gdiCapture := .ok pixBGRA, pngSave := none }

/-- Environment where DXGI initialization succeeds on a 1920×1080
output. -/
def envInitOk : Env :=
  { dxgiInit := .ok (1920, 1080), gdiDims := (0, 0), frame := frameFail,
    gdiCapture := .error "e", pngSave := none }

/-- Environment where the GDI blit fails. -/
def envGdiErr : Env :=
  { dxgiInit := .error "x", gdiDims := (0, 0), frame := frameFail,
    gdiCapture := .error "BitBlt操作失败", pngSave := none }

/-- Environment where the GDI blit succeeds with constant bytes 5 and
the PNG save fails. -/
def envSaveFail : Env :=
  { dxgiInit := .error "x", gdiDims := (0, 0), frame := frameFail,
    gdiCapture := .ok (fun _ => 5), pngSave := some "disk full" }

/-- Environment where the GDI blit succeeds with zero bytes. -/
def envGdiZero : Env :=
  { dxgiInit := .error "x", gdiDims := (0, 0), frame := frameOk 1 4 (fun _ => 0),
    gdiCapture := .ok (fun _ => 0), pngSave := none }

/-- Frame oracle: acquisition succeeds but the desktop resource is
missing. -/
def oNoResource : FrameOracle :=
  { acquire := none, desktopResourcePresent := false, castResult := none,
    createStagingResult := none, stagingPresent := true, mapResult := none,
    texHeight := 0, rowPitch := 0, pix := fun _ => 0 }

/-- Frame oracle: acquisition succeeds but the texture cast fails. -/
def oCastFail : FrameOracle :=
  { acquire := none, desktopResourcePresent := true,
    castResult := some "E_NOINTERFACE", createStagingResult := none,
    stagingPresent := true, mapResult := none,
    texHeight := 0, rowPitch := 0, pix := fun _ => 0 }

/-! ### Basic lemmas about the engine operations -/

/-- `init` always returns `Ok(())`: the DXGI-failure branch falls back
to the GDI dimension query, which has no failure path. -/
theorem init_fst_ok (st : ScreenCapture) (env : Env) :
    (ScreenCapture.init st env).1 = .ok () := by
  unfold ScreenCapture.init
  split
  · rfl
  · split <;> rfl

/-- `init` on an already initialized engine is a no-op returning `Ok`. -/
theorem init_noop (st : ScreenCapture) (env : Env) (h : st.initDone = true) :
    ScreenCapture.init st env = (.ok (), st) := by
  unfold ScreenCapture.init
  simp [h]

/-- `init` always leaves the engine initialized. -/
theorem init_initDone (st : ScreenCapture) (env : Env) :
    (ScreenCapture.init st env).2.initDone = true := by
  unfold ScreenCapture.init
  split
  · next h => exact h
  · split <;> rfl

/-- `ensure_dxgi_resources` is a no-op when the engine already has an
active backend (DXGI resources present or the GDI fallback flag set). -/
theorem ensure_noop (st : ScreenCapture) (env : Env)
    (h : st.dxgi_resources = true ∨ st.use_gdi_fallback = true) :
    ScreenCapture.ensure st env = (.ok (), st) := by
  unfold ScreenCapture.ensure
  rcases h with h | h <;> simp [h]

/-- `ensure_dxgi_resources` never returns an error. -/
theorem ensure_fst_ok (st : ScreenCapture) (env : Env) :
    (ScreenCapture.ensure st env).1 = .ok () := by
  unfold ScreenCapture.ensure
  split
  · exact init_fst_ok _ _
  · rfl

/-- The first validation check fires exactly on a degenerate region. -/
theorem regionDegenerate_true_iff (r : CaptureRegion) :
    regionDegenerate r = true ↔
      r.x < 0 ∨ r.y < 0 ∨ r.width = 0 ∨ r.height = 0 := by
  unfold regionDegenerate
  simp [Bool.or_eq_true, decide_eq_true_iff]
  tauto

/-- The wrapping sum equals the mathematical sum when no wrap occurs. -/
theorem wrapAdd_eq (x : Int) (n : Nat) (hx : 0 ≤ x)
    (h : x.toNat + n < 2 ^ 32) : wrapAdd x n = x.toNat + n := by
  unfold wrapAdd
  omega

/-- `captureCore` on a degenerate region with a settled backend:
`InvalidRegion`, state untouched. -/
theorem captureCore_degenerate (st : ScreenCapture) (env : Env)
    (region : CaptureRegion)
    (hset : st.dxgi_resources = true ∨ st.use_gdi_fallback = true)
    (hbad : regionDegenerate region = true) :
    captureCore st env region = (.err .invalidRegion, st) := by
  unfold captureCore
  rw [ensure_noop st env hset]
  simp [hbad]

/-- `captureCore` on an out-of-bounds region with a settled backend:
`InvalidRegion`, state untouched. -/
theorem captureCore_oob (st : ScreenCapture) (env : Env)
    (region : CaptureRegion)
    (hset : st.dxgi_resources = true ∨ st.use_gdi_fallback = true)
    (hdeg : regionDegenerate region = false)
    (hoob : regionOutOfBounds region st.width st.height = true) :
    captureCore st env region = (.err .invalidRegion, st) := by
  unfold captureCore
  rw [ensure_noop st env hset]
  simp [hdeg, hoob]

/-- `capture` propagates a `captureCore` error unchanged. -/
theorem capture_of_core_err (st : ScreenCapture) (env : Env)
    (region : CaptureRegion) (savePath : Bool) (e : CaptureError)
    (st2 : ScreenCapture)
    (h : captureCore st env region = (.err e, st2)) :
    capture st env region savePath = (.err e, st2) := by
  unfold capture
  rw [h]

/-! ### Claim C4 -/

/-- Claim C4 counterexample: from the uninitialized starting state,
`capture` on the region `{x: -1, y: 0, w: 100, h: 100}` does return
`InvalidRegion`, but the lazy initialization in
`ensure_dxgi_resources` has already mutated the engine state (the
initialization flag, the backend selection and the cached dimensions)
before the validation runs, so the resulting state differs from the
starting one. -/
theorem c4_counterexample :
    capture ScreenCapture.new envInitOk ⟨-1, 0, 100, 100⟩ false =
      (.err .invalidRegion,
       { initDone := true, width := 1920, height := 1080,
         dxgi_resources := true, use_gdi_fallback := false }) ∧
    ({ initDone := true, width := 1920, height := 1080,
       dxgi_resources := true, use_gdi_fallback := false } : ScreenCapture)
      ≠ ScreenCapture.new := by
  constructor
  · rfl
  · decide

/-- Claim C4, amended: for any region with `x < 0`, `y < 0`,
`width == 0` or `height == 0`, `capture` returns `InvalidRegion`; the
engine state is left unchanged provided the engine already has an
active backend (DXGI resources present or the GDI fallback flag set),
which is the case for every state reachable after initialization.
From a state with neither (e.g. the fresh, uninitialized engine), the
lazy initialization in `ensure_dxgi_resources` runs before validation
and mutates the engine state. -/
theorem c4_amended_thm (st : ScreenCapture) (env : Env)
    (region : CaptureRegion) (savePath : Bool)
    (hset : st.dxgi_resources = true ∨ st.use_gdi_fallback = true)
    (hbad : region.x < 0 ∨ region.y < 0 ∨ region.width = 0 ∨
            region.height = 0) :
    capture st env region savePath = (.err .invalidRegion, st) := by
  apply capture_of_core_err
  exact captureCore_degenerate st env region hset
    ((regionDegenerate_true_iff region).mpr hbad)

/-- Witness for the amended C4 at a concrete settled state and
degenerate region. -/
theorem c4_amended_witness :
    capture stGdi1920 envGdiErr ⟨-1, 0, 100, 100⟩ false =
      (.err .invalidRegion, stGdi1920) :=
  c4_amended_thm stGdi1920 envGdiErr ⟨-1, 0, 100, 100⟩ false
    (Or.inr rfl) (Or.inl (by decide))

/-! ### Claim C6 -/

/-- Claim C6 counterexample: on a 1920×1080 display, the region
`{x: 2147483647, y: 0, width: 2147483649, height: 1}` has
`x + width = 2^32` mathematically exceeding the display width, yet the
wrapping 32-bit check computes `(x + width) mod 2^32 = 0 ≤ 1920`, so
validation accepts it and `capture` proceeds to the backend (here the
blit fails, surfacing `CaptureError`, not `InvalidRegion`). -/
theorem c6_counterexample :
    (capture stGdi1920 envGdiErr ⟨2147483647, 0, 2147483649, 1⟩ false).1 =
      .err (.captureError "BitBlt操作失败") ∧
    (capture stGdi1920 envGdiErr ⟨2147483647, 0, 2147483649, 1⟩ false).1 ≠
      .err .invalidRegion ∧
    (0 : Int) ≤ 2147483647 ∧ 0 < 2147483649 ∧
    (1920 : Int) < 2147483647 + 2147483649 := by
  refine ⟨rfl, ?_, by decide, by decide, by decide⟩
  rw [show (capture stGdi1920 envGdiErr ⟨2147483647, 0, 2147483649, 1⟩
        false).1 = .err (.captureError "BitBlt操作失败") from rfl]
  decide

/-- Claim C6, amended: for a region with `x ≥ 0`, `y ≥ 0` whose
`x + width` exceeds the cached display width or whose `y + height`
exceeds the cached display height, `capture` (on an engine with a
settled backend) returns `InvalidRegion` — provided the 32-bit
additions do not wrap, i.e. `x + width < 2^32` and
`y + height < 2^32`.  When an addition wraps to a value not exceeding
the cached dimension, validation erroneously accepts the region. -/
theorem c6_amended_thm (st : ScreenCapture) (env : Env)
    (region : CaptureRegion) (savePath : Bool)
    (hset : st.dxgi_resources = true ∨ st.use_gdi_fallback = true)
    (hx : 0 ≤ region.x) (hy : 0 ≤ region.y)
    (hnw1 : region.x.toNat + region.width < 2 ^ 32)
    (hnw2 : region.y.toNat + region.height < 2 ^ 32)
    (hex : st.width < region.x.toNat + region.width ∨
           st.height < region.y.toNat + region.height) :
    capture st env region savePath = (.err .invalidRegion, st) := by
  by_cases hdeg : regionDegenerate region = true
  · exact capture_of_core_err _ _ _ _ _ _
      (captureCore_degenerate st env region hset hdeg)
  · have hdeg' : regionDegenerate region = false := by
      simpa using hdeg
    apply capture_of_core_err
    apply captureCore_oob st env region hset hdeg'
    unfold regionOutOfBounds
    rw [wrapAdd_eq region.x region.width hx hnw1,
        wrapAdd_eq region.y region.height hy hnw2]
    rcases hex with hex | hex <;> simp [hex]

/-- Witness for the amended C6: a 5×5 region on a 1×1 display. -/
theorem c6_amended_witness :
    capture stGdi11 envGdiErr ⟨0, 0, 5, 5⟩ false =
      (.err .invalidRegion, stGdi11) :=
  c6_amended_thm stGdi11 envGdiErr ⟨0, 0, 5, 5⟩ false
    (Or.inr rfl) (by decide) (by decide) (by decide) (by decide)
    (Or.inl (by decide))

/-! ### Claims C8 and C10 -/

/-- Claim C8: `init` is idempotent — a second `init` call (under any
environment) returns `Ok(())` immediately and leaves the engine in
exactly the state produced by the first call. -/
theorem c8_init_idempotent (st : ScreenCapture) (env env' : Env) :
    ScreenCapture.init ((ScreenCapture.init st env).2) env' =
      (.ok (), (ScreenCapture.init st env).2) :=
  init_noop _ env' (init_initDone st env)

/-- Claim C10: `init` never returns an error — on every engine state
and every DXGI-initialization outcome it returns `Ok(())`, because the
GDI dimension fallback has no failure path. -/
theorem c10_init_never_errors (st : ScreenCapture) (env : Env) :
    (ScreenCapture.init st env).1 = .ok () :=
  init_fst_ok st env

/-! ### Claim C7 -/

/-- Claim C7 is violated by the code: after a successful
`AcquireNextFrame` (acquire outcome `none`), the missing-desktop-
resource exit path and the texture-cast-failure exit path of
`capture_frame` both return without any `ReleaseFrame` call (release
count 0), leaking the frame token, while the claim requires exactly
one release on every exit path.  The staging-failure, map-failure and
success paths do release once. -/
theorem c7_releaseframe_leak :
    captureFrameFull oNoResource =
      (.error (.captureError "无法获取桌面资源"), 0) ∧
    captureFrameFull oCastFail =
      (.error (.captureError "转换纹理失败: E_NOINTERFACE"), 0) ∧
    oNoResource.acquire = none ∧ oCastFail.acquire = none ∧
    (captureFrameFull frameFail).2 = 0 ∧
    (captureFrameFull (frameOk 1 4 (fun _ => 0))).2 = 1 :=
  ⟨rfl, rfl, rfl, rfl, rfl, rfl⟩

/-! ### Claim C3 -/

/-- Claim C3 is violated by the code: for the same native BGRA frame
content (one pure-red pixel, bytes `[0, 0, 255, 255]`), the GDI
fallback path swaps to RGBA `[255, 0, 0, 255]` but the DXGI path
returns the bytes unswapped, so a successful `capture` does not
deliver one canonical channel order regardless of backend.  (The
code's own comments state the DXGI data is BGRA and that the image
crate needs RGBA, yet only `capture_with_gdi` performs the swap.) -/
theorem c3_dxgi_path_unswapped :
    (capture stDxgi11 envDxBGRA ⟨0, 0, 1, 1⟩ false).1 =
      .ok ⟨[0, 0, 255, 255], 1, 1⟩ ∧
    (capture stGdi11 envGdiBGRA ⟨0, 0, 1, 1⟩ false).1 =
      .ok ⟨[255, 0, 0, 255], 1, 1⟩ ∧
    ([0, 0, 255, 255] : List Nat) ≠ [255, 0, 0, 255] := by
  refine ⟨rfl, rfl, by decide⟩

/-! ### Claim C1, counterexample -/

/-- Claim C1 counterexample: on a cached 2×2 display, the DXGI backend
returns a full-frame buffer of only 8 bytes (texture height 1, row
pitch 8 — a stale-dimension frame the extraction loop is explicitly
written to tolerate).  The fully-in-bounds region `{0,0,2,2}` passes
validation, `capture` succeeds, but the second destination row is
silently skipped: the returned pixel buffer has 8 bytes, not
`width * height * 4 = 16`. -/
theorem c1_counterexample :
    (capture stDxgi22 envShortFrame ⟨0, 0, 2, 2⟩ false).1 =
      .ok ⟨List.replicate 8 7, 2, 2⟩ ∧
    (List.replicate 8 7).length ≠ 2 * 2 * 4 := by
  refine ⟨rfl, by decide⟩

/-! ### Claim C2, counterexample -/

/-- Claim C2 counterexample: the DXGI frame `fullC2` has texture
height 2 and row pitch 12 on a cached width-2 display.  For the region
`{x:0, y:1, w:2, h:1}` the claimed row-pitch indexing would read bytes
`[12..20)` of the buffer, but `capture` returns bytes `[8..16)` — the
extraction indexes rows by `cached_width * 4 = 8`, not by the frame's
row pitch. -/
theorem c2_counterexample :
    (capture stDxgi22 envPitchFrame ⟨0, 1, 2, 1⟩ false).1 =
      .ok ⟨[8, 9, 10, 11, 12, 13, 14, 15], 2, 1⟩ ∧
    specExtractRegion fullC2 12 0 1 2 1 =
      [12, 13, 14, 15, 16, 17, 18, 19] ∧
    ([8, 9, 10, 11, 12, 13, 14, 15] : List Nat) ≠
      [12, 13, 14, 15, 16, 17, 18, 19] := by
  refine ⟨rfl, by decide, by decide⟩

/-! ### Claim C5 -/

/-- The final state of `capture` is the state computed by its core. -/
theorem capture_snd_eq_core (st : ScreenCapture) (env : Env)
    (region : CaptureRegion) (p : Bool) :
    (capture st env region p).2 = (captureCore st env region).2 := by
  unfold capture
  rcases h : captureCore st env region with ⟨out, st2⟩
  cases out with
  | panicked => rfl
  | err e => rfl
  | ok data =>
    simp only []
    split
    · split
      · rfl
      · split <;> rfl
    · rfl

/-- On the GDI fallback path, `capture` never mutates the engine
state. -/
theorem captureCore_snd_frozen (st : ScreenCapture) (env : Env)
    (region : CaptureRegion) (hfb : st.use_gdi_fallback = true) :
    (captureCore st env region).2 = st := by
  have hacq : acquireFull st env = (captureWithGdi env st.width st.height, st) := by
    unfold acquireFull
    rw [if_pos hfb]
  unfold captureCore
  rw [ensure_noop st env (Or.inr hfb)]
  simp only []
  split
  · rfl
  · split
    · rfl
    · rw [hacq]
      rcases h : captureWithGdi env st.width st.height with e | full
      · rfl
      · simp only []
        split <;> rfl

/-- On the GDI fallback path, `capture` never mutates the engine
state (top-level version). -/
theorem capture_state_frozen (st : ScreenCapture) (env : Env)
    (region : CaptureRegion) (p : Bool) (hfb : st.use_gdi_fallback = true) :
    (capture st env region p).2 = st := by
  rw [capture_snd_eq_core]
  exact captureCore_snd_frozen st env region hfb

/-- Accelerated-path failure handling: with the accelerated backend
active and a valid region, a frame-acquisition failure demotes the
engine to the GDI fallback and retries once via GDI; a second (GDI)
failure is surfaced to the caller as `CaptureError`, and the final
state records the (permanent) demotion. -/
theorem capture_demotes (st : ScreenCapture) (env : Env)
    (region : CaptureRegion) (p : Bool) (efr : CaptureError) (m : String)
    (hfb : st.use_gdi_fallback = false) (hres : st.dxgi_resources = true)
    (hdeg : regionDegenerate region = false)
    (hoob : regionOutOfBounds region st.width st.height = false)
    (hframe : (captureFrameFull env.frame).1 = .error efr)
    (hgdi : env.gdiCapture = .error m) :
    capture st env region p =
      (.err (.captureError m), { st with use_gdi_fallback := true }) := by
  have hacq : acquireFull st env =
      (.error (.captureError m), { st with use_gdi_fallback := true }) := by
    unfold acquireFull captureFrameRes captureWithGdi
    rw [if_neg (by simp [hfb]), if_neg (by simp [hres]), hframe, hgdi]
  apply capture_of_core_err
  unfold captureCore
  rw [ensure_noop st env (Or.inl hres)]
  simp [hdeg, hoob, hacq]

/-- On the GDI fallback path, `capture` is oblivious to the DXGI frame
oracle: the accelerated path is never exercised. -/
theorem capture_fb_frame_indep (st : ScreenCapture) (env : Env)
    (f' : FrameOracle) (region : CaptureRegion) (p : Bool)
    (hfb : st.use_gdi_fallback = true) :
    capture st env region p = capture st (envWithFrame env f') region p := by
  unfold capture captureCore acquireFull
  rw [ensure_noop st env (Or.inr hfb),
      ensure_noop st (envWithFrame env f') (Or.inr hfb)]
  simp [hfb, envWithFrame, captureWithGdi]

/-- Once demoted (fallback flag set, engine initialized), every
subsequent operation leaves the flag set and the engine initialized. -/
theorem runOps_fb (script : List (EngineOp × Env)) (st : ScreenCapture)
    (hfb : st.use_gdi_fallback = true) (hin : st.initDone = true) :
    (runOps st script).use_gdi_fallback = true ∧
    (runOps st script).initDone = true := by
  induction script generalizing st with
  | nil => exact ⟨hfb, hin⟩
  | cons op rest ih =>
    rcases op with ⟨op, env⟩
    cases op with
    | initOp =>
      have hst : stepState st (.initOp, env) = st := by
        simp [stepState, init_noop st env hin]
      simp only [runOps, hst]
      exact ih st hfb hin
    | captureOp r p =>
      have hst : stepState st (.captureOp r p, env) = st := by
        simp [stepState, capture_state_frozen st env r p hfb]
      simp only [runOps, hst]
      exact ih st hfb hin

/-- Claim C5: (1) with the accelerated backend active and a valid
region, a frame-acquisition failure during `capture` demotes the
engine to the fallback, retries once via GDI, and surfaces a second
failure as `CaptureError`, the final state recording the demotion;
(2) once the fallback flag is set, `capture` is independent of the
DXGI frame oracle (the accelerated path is never used) and never
mutates the state; (3) `init` on an initialized engine is a no-op, so
it cannot resurrect the accelerated path; (4) hence along every
subsequent operation script the demotion persists for the remainder
of the engine's lifetime. -/
theorem c5_demotion_permanent :
    (∀ (st : ScreenCapture) (env : Env) (region : CaptureRegion) (p : Bool)
       (efr : CaptureError) (m : String),
       st.use_gdi_fallback = false → st.dxgi_resources = true →
       regionDegenerate region = false →
       regionOutOfBounds region st.width st.height = false →
       (captureFrameFull env.frame).1 = .error efr →
       env.gdiCapture = .error m →
       capture st env region p =
         (.err (.captureError m), { st with use_gdi_fallback := true })) ∧
    (∀ (st : ScreenCapture) (env : Env) (f' : FrameOracle)
       (region : CaptureRegion) (p : Bool),
       st.use_gdi_fallback = true →
       capture st env region p = capture st (envWithFrame env f') region p ∧
       (capture st env region p).2 = st) ∧
    (∀ (st : ScreenCapture) (env : Env), st.initDone = true →
       ScreenCapture.init st env = (.ok (), st)) ∧
    (∀ (script : List (EngineOp × Env)) (st : ScreenCapture),
       st.use_gdi_fallback = true → st.initDone = true →
       (runOps st script).use_gdi_fallback = true ∧
       (runOps st script).initDone = true) :=
  ⟨fun st env region p efr m h1 h2 h3 h4 h5 h6 =>
     capture_demotes st env region p efr m h1 h2 h3 h4 h5 h6,
   fun st env f' region p h =>
     ⟨capture_fb_frame_indep st env f' region p h,
      capture_state_frozen st env region p h⟩,
   fun st env h => init_noop st env h,
   fun script st h1 h2 => runOps_fb script st h1 h2⟩

/-- Witness for C5 at concrete inputs: a 4×4 accelerated engine whose
frame acquisition times out and whose GDI retry fails with a blit
error; a demoted engine processing a capture and an init; and the
empty operation script. -/
theorem c5_witness :
    capture stDxgi44 envGdiErr ⟨0, 0, 1, 1⟩ false =
      (.err (.captureError "BitBlt操作失败"),
       { stDxgi44 with use_gdi_fallback := true }) ∧
    (capture stGdi11 envGdiErr ⟨0, 0, 1, 1⟩ false =
       capture stGdi11 (envWithFrame envGdiErr frameFail) ⟨0, 0, 1, 1⟩ false ∧
     (capture stGdi11 envGdiErr ⟨0, 0, 1, 1⟩ false).2 = stGdi11) ∧
    ScreenCapture.init stGdi11 envInitOk = (.ok (), stGdi11) ∧
    ((runOps stGdi11 []).use_gdi_fallback = true ∧
     (runOps stGdi11 []).initDone = true) :=
  ⟨c5_demotion_permanent.1 stDxgi44 envGdiErr ⟨0, 0, 1, 1⟩ false
     (.captureError "获取帧失败: 等待超时") "BitBlt操作失败"
     rfl rfl (by decide) (by decide) rfl rfl,
   c5_demotion_permanent.2.1 stGdi11 envGdiErr frameFail ⟨0, 0, 1, 1⟩ false rfl,
   c5_demotion_permanent.2.2.1 stGdi11 envInitOk rfl,
   c5_demotion_permanent.2.2.2 [] stGdi11 rfl rfl⟩

/-! ### Claim C9 -/

/-- Claim C9: when a save path is supplied and the persistence step
fails after a successful in-memory capture (the same call without a
save path returns `Ok`), `capture` returns `Err(CaptureError)` — either
the image-buffer-construction message or the PNG-save message carrying
the underlying encoder/IO text — and the in-memory `CaptureData` is
not returned to the caller. -/
theorem c9_persistence_failure (st : ScreenCapture) (env : Env)
    (region : CaptureRegion) (d : CaptureData) (st2 : ScreenCapture)
    (m : String)
    (hok : capture st env region false = (.ok d, st2))
    (hsave : env.pngSave = some m) :
    (capture st env region true).1 =
      .err (.captureError "创建图像缓冲区失败") ∨
    (capture st env region true).1 =
      .err (.captureError ("保存PNG文件失败: " ++ m)) := by
  unfold capture at hok ⊢
  rcases h : captureCore st env region with ⟨out, stc⟩
  rw [h] at hok
  cases out with
  | panicked => simp at hok
  | err e => simp at hok
  | ok data =>
    simp only [if_true]
    by_cases hlen : data.length < region.width * region.height * 4
    · left
      simp [hlen]
    · right
      simp [hlen, hsave]

/-- Witness for C9: a 1×1 GDI capture that succeeds in memory but
whose PNG save fails with "disk full". -/
theorem c9_witness :
    (capture stGdi11 envSaveFail ⟨0, 0, 1, 1⟩ true).1 =
      .err (.captureError "创建图像缓冲区失败") ∨
    (capture stGdi11 envSaveFail ⟨0, 0, 1, 1⟩ true).1 =
      .err (.captureError ("保存PNG文件失败: " ++ "disk full")) :=
  c9_persistence_failure stGdi11 envSaveFail ⟨0, 0, 1, 1⟩
    ⟨[5, 5, 5, 5], 1, 1⟩ stGdi11 "disk full" rfl rfl

/-! ### Extraction lemmas (claims C1 and C2, amended forms) -/

/-- The channel swap preserves buffer length. -/
theorem bgraToRgba_length : ∀ (l : List Nat),
    (bgraToRgba l).length = l.length
  | [] => rfl
  | [_] => rfl
  | [_, _] => rfl
  | [_, _, _] => rfl
  | _ :: _ :: _ :: _ :: rest => by
      simp [bgraToRgba, bgraToRgba_length rest]

/-- An in-bounds contiguous slice, written as the indexed bytes it
contains. -/
theorem drop_take_eq_map_range (l : List Nat) (s n : Nat)
    (h : s + n ≤ l.length) :
    (l.drop s).take n = (List.range n).map (fun i => l.getD (s + i) 0) := by
  apply List.ext_getElem
  · simp [List.length_take, List.length_drop]
    omega
  · intro i h1 h2
    have hi : i < n := by simpa using h2
    have hsl : s + i < l.length := by omega
    rw [List.getElem_take, List.getElem_drop, List.getElem_map,
        List.getElem_range, List.getD_eq_getElem l 0 hsl]

/-- When the row lies fully inside the buffer, the code's row copy
equals the spec's row read at pitch `W * 4`. -/
theorem extractRow_eq_specRow (full : List Nat) (W x w srcY : Nat)
    (hxw : x + w ≤ W) (hw : 0 < w)
    (hlen : (srcY + 1) * (W * 4) ≤ full.length) :
    extractRow full W x w srcY = some (specRow full (W * 4) x w srcY) := by
  have hWmul : srcY * W * 4 + W * 4 = (srcY + 1) * (W * 4) := by ring
  have h1 : srcY * W * 4 + x * 4 + w * 4 ≤ srcY * W * 4 + W * 4 := by omega
  have hmin : min (srcY * W * 4 + x * 4 + w * 4) (srcY * W * 4 + W * 4)
      = srcY * W * 4 + x * 4 + w * 4 := min_eq_left h1
  have hb : srcY * W * 4 + x * 4 + w * 4 ≤ full.length := by omega
  have hstart : srcY * W * 4 + x * 4 < full.length := by omega
  unfold extractRow specRow
  simp only [hmin]
  have hcl : srcY * W * 4 + x * 4 + w * 4 - (srcY * W * 4 + x * 4) = w * 4 := by
    omega
  simp only [hcl]
  rw [if_pos hstart, if_pos (by omega)]
  rw [Nat.sub_self, List.replicate_zero, List.append_nil]
  rw [drop_take_eq_map_range full (srcY * W * 4 + x * 4) (w * 4) hb]
  simp only [show srcY * (W * 4) = srcY * W * 4 from by ring]

/-- The whole extraction loop, for a region inside the cached display
and a buffer covering the cached display, equals the spec extraction
at row pitch `W * 4`. -/
theorem extractLoop_eq_spec (full : List Nat) (W H x y0 w : Nat)
    (hxw : x + w ≤ W) (hw : 0 < w) (hlen : W * H * 4 ≤ full.length) :
    ∀ (rem y : Nat), y0 + y + rem ≤ H →
      extractLoop full W H x y0 w y rem =
        some (((List.range rem).map
          (fun j => specRow full (W * 4) x w (y0 + y + j))).flatten) := by
  intro rem
  induction rem with
  | zero => intro y h; simp [extractLoop]
  | succ n ih =>
    intro y hy
    have hb : (y0 + y + 1) * (W * 4) ≤ full.length := by
      have h1 : (y0 + y + 1) * (W * 4) ≤ H * (W * 4) :=
        Nat.mul_le_mul_right _ (by omega)
      have h2 : H * (W * 4) = W * H * 4 := by ring
      omega
    have hrow := extractRow_eq_specRow full W x w (y0 + y) hxw hw hb
    unfold extractLoop
    rw [if_neg (by omega), hrow, ih (y + 1) (by omega)]
    rw [List.range_succ_eq_map, List.map_cons, List.flatten_cons,
        List.map_map]
    have harg : ((fun j => specRow full (W * 4) x w (y0 + y + j)) ∘ Nat.succ)
        = fun j => specRow full (W * 4) x w (y0 + (y + 1) + j) := by
      funext j
      simp [Function.comp]
      congr 1
      omega
    rw [harg]
    simp

/-- The code's sub-rectangle extraction, for a region inside the
cached display bounds and a full-frame buffer of at least
`W * H * 4` bytes, equals the spec's extraction instantiated with row
pitch `W * 4`. -/
theorem extractRegion_eq_spec (full : List Nat) (W H x y0 w h : Nat)
    (hxw : x + w ≤ W) (hw : 0 < w) (hyh : y0 + h ≤ H)
    (hlen : W * H * 4 ≤ full.length) :
    extractRegion full W H x y0 w h =
      some (specExtractRegion full (W * 4) x y0 w h) := by
  unfold extractRegion specExtractRegion
  rw [extractLoop_eq_spec full W H x y0 w hxw hw hlen h 0 (by omega)]
  have harg : (fun j => specRow full (W * 4) x w (y0 + 0 + j))
      = fun y => specRow full (W * 4) x w (y0 + y) := by
    funext j
    simp
  rw [harg]

/-- Length of the spec extraction: `h` rows of `w * 4` bytes. -/
theorem specExtractRegion_length (full : List Nat) (P x y0 w h : Nat) :
    (specExtractRegion full P x y0 w h).length = h * (w * 4) := by
  unfold specExtractRegion specRow
  rw [List.length_flatten, List.map_map]
  have harg : (List.length ∘ fun y =>
      (List.range (w * 4)).map
        (fun i => full.getD ((y0 + y) * P + x * 4 + i) 0))
      = Function.const Nat (w * 4) := by
    funext y
    simp [Function.comp, Function.const]
  rw [harg, List.map_const, List.sum_replicate, List.length_range,
      smul_eq_mul]

/-- Claim C2, amended: the extraction indexes source rows by the
*cached display width* — row offset `(region.y + y) * cached_width * 4
+ region.x * 4` — not by the frame's row pitch; for a region inside
the cached bounds and a full-frame buffer of at least
`cached_width * cached_height * 4` bytes, it copies `region.width * 4`
bytes per row and equals the spec's formula only with `row_pitch`
instantiated to `cached_width * 4`.  (Outside those bounds the code
skips rows whose start offset is past the buffer instead of
zero-filling them, and a copy range straddling the buffer's end
panics.) -/
theorem c2_amended_thm (full : List Nat) (W H x y0 w h : Nat)
    (hxw : x + w ≤ W) (hw : 0 < w) (hyh : y0 + h ≤ H)
    (hlen : W * H * 4 ≤ full.length) :
    extractRegion full W H x y0 w h =
      some (specExtractRegion full (W * 4) x y0 w h) :=
  extractRegion_eq_spec full W H x y0 w h hxw hw hyh hlen

/-- Witness for the amended C2 on a concrete 16-byte 2×2 buffer. -/
theorem c2_amended_witness :
    extractRegion (List.range 16) 2 2 0 0 1 1 =
      some (specExtractRegion (List.range 16) 8 0 0 1 1) :=
  c2_amended_thm (List.range 16) 2 2 0 0 1 1 (by decide) (by decide)
    (by decide) (by decide)

/-! ### Claim C1, amended form -/

/-- A successful GDI acquisition buffer has exactly
`width * height * 4` bytes. -/
theorem captureWithGdi_length (env : Env) (w h : Nat) (full : List Nat)
    (hfull : captureWithGdi env w h = .ok full) :
    full.length = w * h * 4 := by
  unfold captureWithGdi at hfull
  rcases hg : env.gdiCapture with e | pix <;> rw [hg] at hfull
  · exact absurd hfull (by simp)
  · simp only [Except.ok.injEq] at hfull
    rw [← hfull, bgraToRgba_length, List.length_map, List.length_range]

/-- A successful DXGI frame buffer has exactly
`texHeight * rowPitch` bytes. -/
theorem captureFrameFull_length (o : FrameOracle) (full : List Nat)
    (hfull : (captureFrameFull o).1 = .ok full) :
    full.length = o.texHeight * o.rowPitch := by
  unfold captureFrameFull at hfull
  repeat' split at hfull
  all_goals simp_all
  rw [← hfull]
  simp

/-- `acquireFull` preserves the cached dimensions, and a buffer it
returns has either the exact GDI size `width * height * 4` or the DXGI
size `texHeight * rowPitch`. -/
theorem acquireFull_spec (st : ScreenCapture) (env : Env) :
    (acquireFull st env).2.width = st.width ∧
    (acquireFull st env).2.height = st.height ∧
    ∀ full, (acquireFull st env).1 = .ok full →
      full.length = st.width * st.height * 4 ∨
      full.length = env.frame.texHeight * env.frame.rowPitch := by
  unfold acquireFull
  by_cases hfb : st.use_gdi_fallback
  · rw [if_pos hfb]
    exact ⟨rfl, rfl, fun full hfull =>
      Or.inl (captureWithGdi_length env st.width st.height full hfull)⟩
  · rw [if_neg hfb]
    rcases h : captureFrameRes st env with e | d
    · exact ⟨rfl, rfl, fun full hfull =>
        Or.inl (captureWithGdi_length env st.width st.height full hfull)⟩
    · refine ⟨rfl, rfl, ?_⟩
      intro full hfull
      right
      simp only [Except.ok.injEq] at hfull
      subst hfull
      unfold captureFrameRes at h
      split at h
      · simp at h
      · exact captureFrameFull_length env.frame d h

/-- For a region fully inside the cached display bounds (no wrap), a
settled backend, and a DXGI buffer at least as large as the cached
display, a successful core capture produces exactly
`width * height * 4` bytes. -/
theorem captureCore_ok_length (st : ScreenCapture) (env : Env)
    (region : CaptureRegion) (data : List Nat) (st2 : ScreenCapture)
    (hset : st.dxgi_resources = true ∨ st.use_gdi_fallback = true)
    (hx : 0 ≤ region.x) (hy : 0 ≤ region.y)
    (hw : 0 < region.width) (hh : 0 < region.height)
    (hxw : region.x.toNat + region.width ≤ st.width)
    (hyh : region.y.toNat + region.height ≤ st.height)
    (hW : st.width < 2 ^ 32) (hH : st.height < 2 ^ 32)
    (hbuf : st.width * st.height * 4 ≤
            env.frame.texHeight * env.frame.rowPitch)
    (hcc : captureCore st env region = (.ok data, st2)) :
    data.length = region.width * region.height * 4 := by
  have hdeg : regionDegenerate region = false := by
    unfold regionDegenerate
    simp only [Bool.or_eq_false_iff, decide_eq_false_iff_not, not_lt,
      beq_eq_false_iff_ne, ne_eq]
    refine ⟨⟨⟨hx, hy⟩, ?_⟩, ?_⟩ <;> omega
  have hoob : regionOutOfBounds region st.width st.height = false := by
    unfold regionOutOfBounds
    rw [wrapAdd_eq region.x region.width hx (by omega),
        wrapAdd_eq region.y region.height hy (by omega)]
    simp only [Bool.or_eq_false_iff, decide_eq_false_iff_not, not_lt]
    omega
  unfold captureCore at hcc
  rw [ensure_noop st env hset] at hcc
  simp only [hdeg, hoob, Bool.false_eq_true, if_false] at hcc
  obtain ⟨hW2, hH2, hlen⟩ := acquireFull_spec st env
  rcases hacq : acquireFull st env with ⟨res, stA⟩
  rw [hacq] at hcc hW2 hH2
  cases res with
  | error e => simp at hcc
  | ok full =>
    have hfl : st.width * st.height * 4 ≤ full.length := by
      rcases hlen full (by rw [hacq]) with h1 | h1 <;> omega
    have hmx : (max region.x 0).toNat = region.x.toNat := by
      rw [max_eq_left hx]
    have hmy : (max region.y 0).toNat = region.y.toNat := by
      rw [max_eq_left hy]
    simp only [hmx, hmy] at hcc
    rw [show stA.width = st.width from hW2,
        show stA.height = st.height from hH2] at hcc
    rw [extractRegion_eq_spec full st.width st.height region.x.toNat
        region.y.toNat region.width region.height hxw hw hyh hfl] at hcc
    simp only [Prod.mk.injEq, CoreOut.ok.injEq] at hcc
    rw [← hcc.1, specExtractRegion_length]
    ring

/-- Claim C1, amended: for every region that passes validation
(`x ≥ 0`, `y ≥ 0`, `width > 0`, `height > 0`, `x + width ≤` cached
width, `y + height ≤` cached height, sums below `2^32`), on an engine
with a settled backend, and *provided the full-frame buffer the
backend returns covers the cached display* (the GDI path always does;
for the DXGI path this is the hypothesis
`texHeight * rowPitch ≥ width * height * 4`), a successful `capture`
returns `CaptureData` with `width = region.width`,
`height = region.height` and `data.length = width * height * 4`.
Without the buffer-size hypothesis the code can return a shorter
buffer (see the counterexample). -/
theorem c1_amended_thm (st : ScreenCapture) (env : Env)
    (region : CaptureRegion) (savePath : Bool) (d : CaptureData)
    (st2 : ScreenCapture)
    (hset : st.dxgi_resources = true ∨ st.use_gdi_fallback = true)
    (hx : 0 ≤ region.x) (hy : 0 ≤ region.y)
    (hw : 0 < region.width) (hh : 0 < region.height)
    (hxw : region.x.toNat + region.width ≤ st.width)
    (hyh : region.y.toNat + region.height ≤ st.height)
    (hW : st.width < 2 ^ 32) (hH : st.height < 2 ^ 32)
    (hbuf : st.width * st.height * 4 ≤
            env.frame.texHeight * env.frame.rowPitch)
    (hcap : capture st env region savePath = (.ok d, st2)) :
    d.width = region.width ∧ d.height = region.height ∧
    d.data.length = region.width * region.height * 4 := by
  unfold capture at hcap
  rcases hcc : captureCore st env region with ⟨out, stc⟩
  rw [hcc] at hcap
  cases out with
  | panicked => simp at hcap
  | err e => simp at hcap
  | ok data =>
    have hlen := captureCore_ok_length st env region data stc hset hx hy
      hw hh hxw hyh hW hH hbuf hcc
    cases savePath with
    | false =>
      simp only [Bool.false_eq_true, if_false, Prod.mk.injEq,
        CapOutcome.ok.injEq] at hcap
      rw [← hcap.1]
      exact ⟨rfl, rfl, hlen⟩
    | true =>
      simp only [if_true] at hcap
      split at hcap
      · simp at hcap
      · split at hcap
        · simp at hcap
        · simp only [Prod.mk.injEq, CapOutcome.ok.injEq] at hcap
          rw [← hcap.1]
          exact ⟨rfl, rfl, hlen⟩

/-- Witness for the amended C1: a 1×1 GDI capture of the whole
display. -/
theorem c1_amended_witness :
    (⟨[0, 0, 0, 0], 1, 1⟩ : CaptureData).width = 1 ∧
    (⟨[0, 0, 0, 0], 1, 1⟩ : CaptureData).height = 1 ∧
    (⟨[0, 0, 0, 0], 1, 1⟩ : CaptureData).data.length = 1 * 1 * 4 :=
  c1_amended_thm stGdi11 envGdiZero ⟨0, 0, 1, 1⟩ false
    ⟨[0, 0, 0, 0], 1, 1⟩ stGdi11 (Or.inr rfl) (by decide) (by decide)
    (by decide) (by decide) (by decide) (by decide) (by decide)
    (by decide) (by decide) (by decide)
